import Mathlib

/-!
Verification development for the Dream_Analysis journaling tool.

The Python source under verification is shallow-embedded below:
- pure functions become Lean functions over `List Char` / `String` / `ℚ`;
- Python `float` arithmetic is modelled exactly over `ℚ` (the decimal
  literals `0.1` and `0.2` become `1/10` and `1/5`; `round(x, 1)` becomes
  exact round-half-even at one decimal place);
- Python `dict` / `collections.Counter` become insertion-ordered
  association lists;
- fallible code returns `Option`.

Text handling is modelled for ASCII text: `str.lower` maps `A..Z` to
`a..z`, and the regex `\b` word boundary separates `[A-Za-z0-9_]` from
everything else, matching CPython behaviour on the ASCII catalogs and
example texts used throughout.
-/

/-! ### Word-boundary keyword matching (re.findall with `\b...\b`) -/

/-- A regex word character (`\w` for ASCII): letter, digit or underscore. -/
def isWordChar (c : Char) : Bool := c.isAlphanum || c = '_'

/-- Whether position `i` of `text` holds a word character (out of range: no). -/
def wordAt (text : List Char) (i : Nat) : Bool :=
  match text[i]? with
  | some c => isWordChar c
  | none => false

/-- The regex `\b` word boundary holds at position `i` (between `text[i-1]`
and `text[i]`, each side taken as non-word when out of range). -/
def boundaryAt (text : List Char) (i : Nat) : Bool :=
  match i with
  | 0 => wordAt text 0
  | j + 1 => wordAt text j != wordAt text (j + 1)

/-- The literal `kw` occurs at position `i` of `text` with word boundaries on
both sides: the embedding of one match of the pattern `r'\b' + re.escape(kw)
+ r'\b'`. -/
def matchAt (kw text : List Char) (i : Nat) : Bool :=
  kw.isPrefixOf (text.drop i) && boundaryAt text i && boundaryAt text (i + kw.length)

/-- Number of word-bounded occurrences of `kw` in `text`: the embedding of
`len(re.findall(r'\b' + re.escape(keyword) + r'\b', text))`.  `findall`
scans left to right without overlap; counting all match positions agrees
with it because two word-bounded matches of one catalog keyword can never
overlap (no keyword has a non-trivial border). -/
def matchCount (kw text : List Char) : Nat :=
  (List.range (text.length + 1)).countP (fun i => matchAt kw text i)

/-- Split a character list at every separator character, keeping empty
pieces: the semantics of `str.split(sep)` for a one-character separator. -/
def splitPred (p : Char → Bool) : List Char → List (List Char)
  | [] => [[]]
  | x :: rest =>
    let r := splitPred p rest
    if p x then [] :: r
    else
      match r with
      | h :: t => (x :: h) :: t
      | [] => [[x]]

/-- Number of whitespace-separated words: `len(s.split())` (split on
whitespace runs, empty pieces discarded). -/
def countWords (s : String) : Nat :=
  ((splitPred Char.isWhitespace s.data).filter (fun w => w ≠ [])).length

/-- `str.lower()` on the character data. -/
def lowerData (s : String) : List Char := s.data.map Char.toLower

/-- `str.lower()`, character by character. -/
def strLower (s : String) : String := String.mk (lowerData s)

/-- `str.strip()`: drop whitespace from both ends. -/
def strTrim (s : String) : String :=
  String.mk (((s.data.dropWhile Char.isWhitespace).reverse.dropWhile Char.isWhitespace).reverse)

/-! ### Stable descending sort (Python `sorted(..., reverse=True)` /
`sorted(..., key=..., reverse=True)` / `Counter.most_common`) -/

/-- Insert `a` into the descending-sorted `l`, after every element whose key
is `≥ key a`.  Elements already in `l` come from earlier positions of the
original list, so placing `a` after equal keys is exactly CPython's stable
sort with `reverse=True`. -/
def insertDesc {α β : Type} [LinearOrder β] (key : α → β) : List α → α → List α
  | [], a => [a]
  | b :: l, a => if key b < key a then a :: b :: l else b :: insertDesc key l a

/-- Stable sort by descending key. -/
def sortDesc {α β : Type} [LinearOrder β] (key : α → β) (l : List α) : List α :=
  l.foldl (insertDesc key) []

/-! ### The two theme catalogs

Only the keyword lists take part in the analysis functions under
verification; the `interpretation` and `tips` strings of the Python
dictionaries are never read by them and are omitted from the embedding. -/

/-- Theme → keywords of `DreamThemeAnalyzer.__init__` in `dream_analyzer.py`. -/
def dreamThemes1 : List (String × List String) :=
  [("Flying", ["fly", "flying", "soar", "wings", "air", "floating", "levitate", "hover"]),
   ("Falling", ["fall", "falling", "drop", "tumble", "plunge", "crash", "cliff"]),
   ("Chase", ["chase", "chasing", "pursue", "run", "running", "escape", "hunt", "follow"]),
   ("Water", ["water", "ocean", "sea", "river", "lake", "swimming", "drowning", "waves", "flood"]),
   ("Animals", ["dog", "cat", "horse", "bird", "snake", "lion", "tiger", "bear", "wolf", "animal"]),
   ("Death", ["death", "dying", "dead", "funeral", "grave", "cemetery", "corpse"]),
   ("School/Exam", ["school", "exam", "test", "classroom", "teacher", "student", "homework", "study"]),
   ("House/Home", ["house", "home", "room", "door", "window", "stairs", "basement", "attic"]),
   ("Vehicles", ["car", "train", "plane", "bus", "driving", "crash", "accident", "travel"]),
   ("Money", ["money", "cash", "rich", "poor", "wealthy", "coins", "bills", "treasure"]),
   ("Pregnancy/Birth", ["pregnant", "pregnancy", "baby", "birth", "newborn", "labor"]),
   ("Nakedness", ["naked", "nude", "undressed", "clothes", "embarrassed", "exposed"]),
   ("Food", ["food", "eating", "hungry", "feast", "cooking", "restaurant", "meal"]),
   ("Lost", ["lost", "missing", "can\x27t find", "searching", "maze", "confused", "direction"]),
   ("Fire", ["fire", "flames", "burn", "burning", "smoke", "heat", "explosion"])]

/-- Theme → keywords of `DreamThemeAnalyzer.__init__` in
`enhanced_dream_analysis.py`. -/
def dreamThemes2 : List (String × List String) :=
  [("Flying", ["fly", "flying", "soar", "floating", "levitate", "wings", "air", "sky", "clouds"]),
   ("Falling", ["fall", "falling", "drop", "dropped", "cliff", "height", "tumble", "plunge"]),
   ("Chase", ["chase", "chased", "running", "pursue", "escape", "flee", "hunt", "follow"]),
   ("Water", ["water", "ocean", "sea", "river", "lake", "pool", "swimming", "drowning", "waves"]),
   ("Animals", ["dog", "cat", "snake", "bird", "lion", "tiger", "elephant", "horse", "animal"]),
   ("Family", ["mother", "father", "mom", "dad", "sister", "brother", "family", "relative"]),
   ("School/Work", ["school", "teacher", "exam", "test", "office", "work", "boss", "meeting"]),
   ("Death", ["death", "die", "dead", "funeral", "grave", "ghost", "spirit", "cemetery"]),
   ("Love/Romance", ["love", "kiss", "romance", "boyfriend", "girlfriend", "wedding", "date"]),
   ("Travel", ["travel", "journey", "trip", "vacation", "foreign", "country", "airport", "train"]),
   ("House/Home", ["house", "home", "room", "kitchen", "bedroom", "bathroom", "stairs", "door"]),
   ("Money", ["money", "rich", "poor", "lottery", "gold", "treasure", "bank", "pay", "buy"]),
   ("Food", ["food", "eat", "eating", "hungry", "restaurant", "cooking", "meal", "dinner"]),
   ("Vehicle", ["car", "bus", "train", "plane", "bike", "motorcycle", "driving", "crash"]),
   ("Nature", ["forest", "mountain", "tree", "flower", "garden", "field", "valley", "desert"]),
   ("Technology", ["phone", "computer", "internet", "robot", "machine", "gadget", "screen"]),
   ("Violence", ["fight", "fighting", "war", "weapon", "gun", "knife", "blood", "attack"]),
   ("Supernatural", ["magic", "wizard", "witch", "demon", "angel", "ghost", "spirit", "power"])]

/-! ### analyze_dream_themes, both variants -/

/-- One theme match: the `{'confidence': ..., 'keywords': ..., 'score': ...}`
record built per detected theme. -/
structure ThemeData where
  confidence : ℚ
  keywords : List String
  score : Nat
deriving Repr, DecidableEq

/-- Per-theme score: the loop summing `len(re.findall(...))` over the
theme's keywords. -/
def keywordScore (kws : List String) (textLower : List Char) : Nat :=
  (kws.map (fun kw => matchCount kw.data textLower)).sum

/-- Per-theme matched keyword instances:
`matched_keywords.extend([keyword] * matches)` over the theme's keywords. -/
def matchedKeywords (kws : List String) (textLower : List Char) : List String :=
  kws.flatMap (fun kw => List.replicate (matchCount kw.data textLower) kw)

/-- `dream_analyzer.py` confidence:
`min((score / max(dream_length * 0.1, 1)) * 100, 100)`, over exact
rationals. -/
def confidence1 (score wordCount : Nat) : ℚ :=
  min ((score : ℚ) / max ((wordCount : ℚ) * (1 / 10)) 1 * 100) 100

/-- `enhanced_dream_analysis.py` confidence: `min(score * 20, 100)`. -/
def confidence2 (score : Nat) : ℚ :=
  min ((score : ℚ) * 20) 100

/-- `DreamThemeAnalyzer.analyze_dream_themes` of `dream_analyzer.py`.
The argument is `Option String` so that Python's `None` is representable;
`if not dream_content` is true for both `None` and `""`.  Result entries
are sorted by descending confidence (`sorted(..., key=lambda x:
x[1]['confidence'], reverse=True)`, a stable sort). -/
def analyzeDreamThemes1 (dream_content : Option String) : List (String × ThemeData) :=
  match dream_content with
  | none => []
  | some s =>
    if s = "" then []
    else
      let dreamLower := lowerData s
      let wc := countWords s
      let themeScores := dreamThemes1.filterMap (fun td =>
        let score := keywordScore td.2 dreamLower
        if score > 0 then
          some (td.1, ThemeData.mk (confidence1 score wc) (matchedKeywords td.2 dreamLower) score)
        else none)
      sortDesc (fun x => x.2.confidence) themeScores

/-- `DreamThemeAnalyzer.analyze_dream_themes` of
`enhanced_dream_analysis.py`: same matching loop over its own catalog,
confidence `min(score * 20, 100)`, sorted by descending score. -/
def analyzeDreamThemes2 (dream_content : Option String) : List (String × ThemeData) :=
  match dream_content with
  | none => []
  | some s =>
    if s = "" then []
    else
      let dreamLower := lowerData s
      let themeScores := dreamThemes2.filterMap (fun td =>
        let score := keywordScore td.2 dreamLower
        if score > 0 then
          some (td.1, ThemeData.mk (confidence2 score) (matchedKeywords td.2 dreamLower) score)
        else none)
      sortDesc (fun x => x.2.score) themeScores


/-! ### Data model: SleepEntry / PerformanceEntry -/

/-- `SleepEntry` of `sleep_entry.py` (the derived `sleep_duration` field is
the standalone function `calculateSleepDuration` below). -/
structure SleepEntry where
  date : String
  bedtime : String
  wake_time : String
  sleep_quality : Int
  had_dreams : Bool
  dream_content : String
  dream_emotions : List String
deriving Repr, DecidableEq

/-- Exact round-half-even to an integer: the rounding mode of Python's
`round`, modelled on exact rationals. -/
def roundHalfEven (q : ℚ) : Int :=
  let f := ⌊q⌋
  if q - f < 1 / 2 then f
  else if q - f > 1 / 2 then f + 1
  else if f % 2 = 0 then f else f + 1

/-- `round(q, 1)` as the integer number of tenths. -/
def roundTenths (q : ℚ) : Int := roundHalfEven (q * 10)

/-- `round(q, 1)` as a rational. -/
def round1 (q : ℚ) : ℚ := (roundTenths q : ℚ) / 10

/-- `PerformanceEntry` of `sleep_entry.py` (`overall_score` is the derived
function `overallScore` below). -/
structure PerformanceEntry where
  date : String
  productivity : Int
  mood : Int
  energy_level : Int
  stress_level : Int
deriving Repr, DecidableEq

/-- `PerformanceEntry._calculate_overall_score`:
`round((productivity + mood + energy + (11 - stress)) / 4, 1)`. -/
def overallScore (p : PerformanceEntry) : ℚ :=
  round1 (((p.productivity + p.mood + p.energy_level + (11 - p.stress_level) : Int) : ℚ) / 4)

/-! ### Insertion-ordered dictionaries and Counter -/

/-- Python `dict` insertion/update: replace in place on an existing key
(keeping its position), append a new key at the end. -/
def dictInsert {κ ν : Type} [DecidableEq κ] (k : κ) (v : ν) : List (κ × ν) → List (κ × ν)
  | [] => [(k, v)]
  | (k', v') :: rest => if k' = k then (k, v) :: rest else (k', v') :: dictInsert k v rest

/-- `defaultdict(list)` append: `d[k].append(v)`. -/
def dictAppend {κ : Type} [DecidableEq κ] (k : κ) (v : String) :
    List (κ × List String) → List (κ × List String)
  | [] => [(k, [v])]
  | (k', vs) :: rest =>
    if k' = k then (k', vs ++ [v]) :: rest else (k', vs) :: dictAppend k v rest

/-- Helper for `firstDedup`: keep the elements not yet seen. -/
def firstDedupAux {α : Type} [DecidableEq α] (seen : List α) : List α → List α
  | [] => []
  | a :: l => if a ∈ seen then firstDedupAux seen l else a :: firstDedupAux (a :: seen) l

/-- The elements of `l` in first-occurrence order, each once: the key order
of a dict or `Counter` built by iterating `l`. -/
def firstDedup {α : Type} [DecidableEq α] (l : List α) : List α :=
  firstDedupAux [] l

/-- `collections.Counter(l)`: an insertion-ordered map from each element of
`l` (in first-occurrence order) to its multiplicity. -/
def counterList (l : List String) : List (String × Nat) :=
  (firstDedup l).map (fun t => (t, l.count t))

/-- `Counter(l).most_common(n)`: the `n` largest counts, in descending
order, ties kept in first-encountered order (documented behaviour of
`Counter.most_common`). -/
def mostCommon (n : Nat) (l : List String) : List (String × Nat) :=
  (sortDesc (fun p => p.2) (counterList l)).take n

/-! ### analyze_dream_patterns (dream_analyzer.py), decomposed into the
blocks of the Python function body -/

/-- The qualifying entries: `[entry for entry in sleep_entries if
entry.had_dreams and entry.dream_content]`. -/
def qualifying1 (entries : List SleepEntry) : List SleepEntry :=
  entries.filter (fun e => e.had_dreams && e.dream_content != "")

/-- The detected theme names of one dream text, in result order. -/
def themeNames1 (c : String) : List String :=
  (analyzeDreamThemes1 (some c)).map Prod.fst

/-- `all_themes`: every detected theme of every qualifying entry. -/
def allThemes1 (entries : List SleepEntry) : List String :=
  (qualifying1 entries).flatMap (fun e => themeNames1 e.dream_content)

/-- `dreams_by_date[entry.date] = entry_themes` accumulated over the
qualifying entries. -/
def dreamsByDate1 (entries : List SleepEntry) : List (String × List String) :=
  (qualifying1 entries).foldl (fun m e => dictInsert e.date (themeNames1 e.dream_content) m) []

/-- `recurring_themes`: the counter items with `count / total_dreams >=
0.2`, reported as `(theme, count, (count/total_dreams)*100)`. -/
def recurringThemes1 (entries : List SleepEntry) : List (String × Nat × ℚ) :=
  let total := (qualifying1 entries).length
  (counterList (allThemes1 entries)).filterMap (fun p =>
    if (p.2 : ℚ) / (total : ℚ) ≥ 1 / 5 then
      some (p.1, p.2, (p.2 : ℚ) / (total : ℚ) * 100)
    else none)

/-- One element of `emotional_themes`. -/
structure EmotionalTheme where
  emotions : List String
  themes : List String
  sleep_quality : Int
deriving Repr, DecidableEq

/-- `emotional_themes`: for qualifying entries with emotions and at least
one detected theme, the emotions, the top-2 theme names, and the quality. -/
def emotionalThemes1 (entries : List SleepEntry) : List EmotionalTheme :=
  (qualifying1 entries).filterMap (fun e =>
    if e.dream_emotions ≠ [] then
      let themes := analyzeDreamThemes1 (some e.dream_content)
      if themes ≠ [] then
        some (EmotionalTheme.mk e.dream_emotions ((themes.take 2).map Prod.fst) e.sleep_quality)
      else none
    else none)

/-- The aggregate record returned by `analyze_dream_patterns`. -/
structure DreamPatterns where
  total_dream_nights : Nat
  most_common_themes : List (String × Nat)
  recurring_themes : List (String × Nat × ℚ)
  dreams_by_date : List (String × List String)
  emotional_theme_correlation : List EmotionalTheme
  analysis_period : String
deriving Repr, DecidableEq

/-- `DreamThemeAnalyzer.analyze_dream_patterns` of `dream_analyzer.py`:
`None` when no entry qualifies, otherwise the aggregate record. -/
def analyzeDreamPatterns1 (entries : List SleepEntry) : Option DreamPatterns :=
  match qualifying1 entries with
  | [] => none
  | e :: rest =>
    some (DreamPatterns.mk (e :: rest).length
      (mostCommon 5 (allThemes1 entries))
      (recurringThemes1 entries)
      (dreamsByDate1 entries)
      (emotionalThemes1 entries)
      (e.date ++ " to " ++ ((e :: rest).getLast (List.cons_ne_nil e rest)).date))

/-! ### analyze_emotional_dream_correlation (dream_analyzer.py) -/

/-- The `correlations` defaultdict: for each entry with dreams, content and
emotions, every cleaned emotion label is associated with the entry's top-2
theme names, in iteration order. -/
def emotionCorrelations1 (entries : List SleepEntry) : List (String × List String) :=
  entries.foldl (fun m e =>
    if e.had_dreams && e.dream_content != "" && !e.dream_emotions.isEmpty then
      let tops := ((analyzeDreamThemes1 (some e.dream_content)).take 2).map Prod.fst
      e.dream_emotions.foldl (fun m em =>
        tops.foldl (fun m t => dictAppend (strTrim (strLower em)) t m) m) m
    else m) []

/-- One value of `emotion_theme_patterns`. -/
structure EmotionPattern where
  most_common_theme : String
  frequency : Nat
  total_occurrences : Nat
deriving Repr, DecidableEq

/-- `DreamThemeAnalyzer.analyze_emotional_dream_correlation`: for each
emotion with at least 2 associated themes, the most common associated
theme, its count, and the total number of associations. -/
def analyzeEmotionalDreamCorrelation1 (entries : List SleepEntry) :
    List (String × EmotionPattern) :=
  (emotionCorrelations1 entries).filterMap (fun p =>
    if 2 ≤ p.2.length then
      match mostCommon 1 p.2 with
      | mc :: _ => some (p.1, EmotionPattern.mk mc.1 mc.2 p.2.length)
      | [] => none
    else none)

/-! ### analyze_dream_patterns (enhanced_dream_analysis.py)

The Python function filters on `entry.date >= cutoff_date` where
`cutoff_date` is computed from the wall clock (`datetime.now() -
timedelta(days=days_back)`); the cutoff is a parameter here.  ISO dates
compare correctly as strings in both Python and this embedding. -/

/-- Lexicographic `≤` on character lists by code point: Python's string
comparison (equal prefixes: the shorter string is smaller). -/
def charListLe : List Char → List Char → Bool
  | [], _ => true
  | _ :: _, [] => false
  | a :: as, b :: bs => if a < b then true else if b < a then false else charListLe as bs

/-- Python `s <= t` on strings. -/
def strLe (a b : String) : Bool := charListLe a.data b.data

/-- `recent_dreams` of the enhanced variant: dream flag set and date on or
after the cutoff (no content check in this variant). -/
def recentDreams2 (entries : List SleepEntry) (cutoff : String) : List SleepEntry :=
  entries.filter (fun e => e.had_dreams && strLe cutoff e.date)

/-- Detected theme names of the enhanced variant for one text. -/
def themeNames2 (c : String) : List String :=
  (analyzeDreamThemes2 (some c)).map Prod.fst

/-- `all_themes` of the enhanced variant. -/
def allThemes2 (entries : List SleepEntry) (cutoff : String) : List String :=
  (recentDreams2 entries cutoff).flatMap (fun e => themeNames2 e.dream_content)

/-! ### SleepAnalyzer.analyze_correlations (sleep_entry.py) -/

/-- Render an integer number of tenths the way Python prints a one-decimal
float (`7.5`, `8.0`, `-1.5`). -/
def fmtTenths (n : Int) : String :=
  (if n < 0 then "-" else "") ++ toString (n.natAbs / 10) ++ "." ++ toString (n.natAbs % 10)

/-- The text of `round(q, 1)` as interpolated into the correlation
messages. -/
def fmtScore (q : ℚ) : String := fmtTenths (roundTenths q)

/-- `sum(l) / len(l)` over rationals. -/
def avgList (l : List ℚ) : ℚ := l.sum / (l.length : ℚ)

/-- `{entry.date: entry for entry in sleep_entries}` (later entries
overwrite earlier ones on a duplicate date, key position kept). -/
def sleepDict (ss : List SleepEntry) : List (String × SleepEntry) :=
  ss.foldl (fun m e => dictInsert e.date e m) []

/-- `{entry.date: entry for entry in performance_entries}`. -/
def perfDict (ps : List PerformanceEntry) : List (String × PerformanceEntry) :=
  ps.foldl (fun m e => dictInsert e.date e m) []

/-- `matched_dates`: the dates present in both dictionaries.  Python holds
them in a `set` with unspecified iteration order; every quantity derived
from them below (lengths, sums, averages) is iteration-order independent,
so one fixed enumeration is used. -/
def matchedDates (ss : List SleepEntry) (ps : List PerformanceEntry) : List String :=
  ((sleepDict ss).map Prod.fst).filter (fun d => ((perfDict ps).lookup d).isSome)

/-- The matched `(sleep_entry, performance_entry)` pairs. -/
def matchedPairs (ss : List SleepEntry) (ps : List PerformanceEntry) :
    List (SleepEntry × PerformanceEntry) :=
  (matchedDates ss ps).filterMap (fun d =>
    match (sleepDict ss).lookup d, (perfDict ps).lookup d with
    | some se, some pe => some (se, pe)
    | _, _ => none)

/-- `high_sleep_quality_days`: overall scores on matched dates with sleep
quality `>= 7`. -/
def goodSleepScores (ss : List SleepEntry) (ps : List PerformanceEntry) : List ℚ :=
  ((matchedPairs ss ps).filter (fun q => 7 ≤ q.1.sleep_quality)).map (fun q => overallScore q.2)

/-- `low_sleep_quality_days`: overall scores on matched dates with sleep
quality `<= 4` (the `elif` branch; the two conditions are disjoint). -/
def poorSleepScores (ss : List SleepEntry) (ps : List PerformanceEntry) : List ℚ :=
  ((matchedPairs ss ps).filter (fun q => q.1.sleep_quality ≤ 4)).map (fun q => overallScore q.2)

/-- `dream_performance`: overall scores on matched dates with dreams. -/
def dreamScores (ss : List SleepEntry) (ps : List PerformanceEntry) : List ℚ :=
  ((matchedPairs ss ps).filter (fun q => q.1.had_dreams)).map (fun q => overallScore q.2)

/-- `no_dream_performance`: overall scores on matched dates without dreams. -/
def noDreamScores (ss : List SleepEntry) (ps : List PerformanceEntry) : List ℚ :=
  ((matchedPairs ss ps).filter (fun q => !q.1.had_dreams)).map (fun q => overallScore q.2)

/-- The message for fewer than 3 matched dates. -/
def needThreeMsg : String := "Need at least 3 matching dates for correlation analysis"

/-- The message for an empty entry list. -/
def insufficientMsg : String := "Insufficient data for correlation analysis"

/-- The good-sleep average line. -/
def goodSleepLine (ss : List SleepEntry) (ps : List PerformanceEntry) : String :=
  "Average performance on good sleep days (7+): " ++ fmtScore (avgList (goodSleepScores ss ps)) ++ "/10"

/-- The poor-sleep average line. -/
def poorSleepLine (ss : List SleepEntry) (ps : List PerformanceEntry) : String :=
  "Average performance on poor sleep days (≤4): " ++ fmtScore (avgList (poorSleepScores ss ps)) ++ "/10"

/-- The with-dreams average line. -/
def dreamLine (ss : List SleepEntry) (ps : List PerformanceEntry) : String :=
  "Average performance with dreams: " ++ fmtScore (avgList (dreamScores ss ps)) ++ "/10"

/-- The without-dreams average line. -/
def noDreamLine (ss : List SleepEntry) (ps : List PerformanceEntry) : String :=
  "Average performance without dreams: " ++ fmtScore (avgList (noDreamScores ss ps)) ++ "/10"

/-- `SleepAnalyzer.analyze_correlations`. -/
def analyzeCorrelations (ss : List SleepEntry) (ps : List PerformanceEntry) : List String :=
  if ss = [] ∨ ps = [] then [insufficientMsg]
  else if (matchedDates ss ps).length < 3 then [needThreeMsg]
  else
    let c1 := if goodSleepScores ss ps ≠ [] then [goodSleepLine ss ps] else []
    let c2 := if poorSleepScores ss ps ≠ [] then [poorSleepLine ss ps] else []
    let c3 := if dreamScores ss ps ≠ [] ∧ noDreamScores ss ps ≠ [] then
        [dreamLine ss ps, noDreamLine ss ps]
      else []
    let correlations := c1 ++ c2 ++ c3
    if correlations = [] then ["No significant correlations found"] else correlations

/-! ### calculate_trend (utils.py) -/

/-- The loop `for i in range(1, len(values))` counting strict increases and
strict decreases over consecutive pairs, embedded as recursion over the
list. -/
def trendCounts : List ℚ → Nat × Nat
  | a :: b :: rest =>
    let p := trendCounts (b :: rest)
    if a < b then (p.1 + 1, p.2) else if b < a then (p.1, p.2 + 1) else p
  | _ => ([0, 0].head!, 0)

/-- `calculate_trend` of `utils.py`. -/
def calculateTrend (values : List ℚ) : String :=
  if values.length < 2 then "Insufficient data"
  else
    let p := trendCounts values
    if p.2 < p.1 then "Improving"
    else if p.1 < p.2 then "Declining"
    else "Stable"

/-! ### SleepEntry._calculate_sleep_duration (sleep_entry.py) -/

/-- The value of a nonempty all-digit character list. -/
def digitsVal : List Char → Option Nat
  | [] => none
  | l => if l.all (fun c => c.isDigit) then
      some (l.foldl (fun n c => 10 * n + (c.toNat - '0'.toNat)) 0)
    else none

/-- Python `int(s)` on the strings reaching the duration computation: an
optional sign followed by decimal digits.  (CPython additionally accepts
surrounding whitespace and inner underscores; those inputs behave like
their stripped forms and do not affect the claims below.) -/
def parseInt (s : String) : Option Int :=
  match s.data with
  | '+' :: rest => (digitsVal rest).map (fun n => (n : Int))
  | '-' :: rest => (digitsVal rest).map (fun n => -(n : Int))
  | l => (digitsVal l).map (fun n => (n : Int))

/-- `str.split(':')` on the character list: split at every colon, keeping
empty pieces. -/
def splitColon (l : List Char) : List (List Char) :=
  splitPred (fun c => c = ':') l

/-- `hour, minute = map(int, s.split(':'))`: succeeds exactly when the split
has two parts and both parse as integers; any other shape raises in Python
and lands in the `except` branch. -/
def parseClock (s : String) : Option (Int × Int) :=
  match splitColon s.data with
  | [h, m] =>
    match parseInt (String.mk h), parseInt (String.mk m) with
    | some hh, some mm => some (hh, mm)
    | _, _ => none
  | _ => none

/-- `SleepEntry._calculate_sleep_duration`: minutes since midnight for both
times, add 24h when the wake time is earlier, `round(minutes / 60, 1)`;
`0.0` when anything raises. -/
def calculateSleepDuration (bedtime wake_time : String) : ℚ :=
  match parseClock bedtime, parseClock wake_time with
  | some bt, some wt =>
    let bedMinutes := bt.1 * 60 + bt.2
    let wakeMinutes := wt.1 * 60 + wt.2
    let wakeMinutes' := if wakeMinutes < bedMinutes then wakeMinutes + 24 * 60 else wakeMinutes
    round1 (((wakeMinutes' - bedMinutes : Int) : ℚ) / 60)
  | _, _ => 0


/-- A bedtime/wake string is a valid clock time: parses as `H:M` with
`0 <= H < 24` and `0 <= M < 60`. -/
def isValidClock (s : String) : Bool :=
  match parseClock s with
  | some t => decide (0 ≤ t.1) && decide (t.1 < 24) && decide (0 ≤ t.2) && decide (t.2 < 60)
  | none => false

/-! ### Concrete inputs used by witnesses and counterexamples -/

/-- The 2024-01-15 flying entry of the documented example scenario. -/
def entryFlying : SleepEntry :=
  SleepEntry.mk "2024-01-15" "23:00" "07:00" 8 true
    "I was flying over beautiful mountains and felt so peaceful and free"
    ["peaceful", "happy", "excited"]

/-- The 2024-01-17 swimming entry of the documented example scenario. -/
def entrySwimming : SleepEntry :=
  SleepEntry.mk "2024-01-17" "23:00" "07:00" 7 true
    "I was swimming in clear blue water with dolphins"
    ["peaceful", "joyful"]

/-- An entry whose dream text matches three themes of the enhanced catalog
(Flying with score 3, Water with score 2, Animals with score 1). -/
def entryThreeThemes : SleepEntry :=
  SleepEntry.mk "2024-02-01" "23:00" "07:00" 8 true "fly fly fly water water dog" []

/-- A one-entry collection whose single dream matches only Flying. -/
def entryOnlyFlying : SleepEntry :=
  SleepEntry.mk "2024-03-01" "23:00" "07:00" 8 true "flying" []

/-- Three sleep entries on consecutive dates for the correlation witness. -/
def sleepThree : List SleepEntry :=
  [SleepEntry.mk "2024-04-01" "23:00" "07:00" 8 true "flying" ["happy"],
   SleepEntry.mk "2024-04-02" "23:00" "07:00" 3 false "" [],
   SleepEntry.mk "2024-04-03" "23:00" "07:00" 9 false "" []]

/-- Matching performance entries for the correlation witness. -/
def perfThree : List PerformanceEntry :=
  [PerformanceEntry.mk "2024-04-01" 8 8 8 3,
   PerformanceEntry.mk "2024-04-02" 4 4 4 8,
   PerformanceEntry.mk "2024-04-03" 9 9 9 2]

/-- A too-small pair of entry lists for the correlation guard: one shared
date only. -/
def sleepOne : List SleepEntry :=
  [SleepEntry.mk "2024-05-01" "23:00" "07:00" 8 false "" []]

/-- One matching performance entry. -/
def perfOne : List PerformanceEntry :=
  [PerformanceEntry.mk "2024-05-01" 7 7 7 4]

/-- The aggregate record for the one-entry collection `[entryOnlyFlying]`. -/
def patternsOnlyFlying : DreamPatterns :=
  DreamPatterns.mk 1 (mostCommon 5 (allThemes1 [entryOnlyFlying]))
    (recurringThemes1 [entryOnlyFlying]) (dreamsByDate1 [entryOnlyFlying])
    (emotionalThemes1 [entryOnlyFlying]) "2024-03-01 to 2024-03-01"

/-- Unfolding equation for the duration on two parseable times. -/
theorem calculateSleepDuration_eq (b w : String) (bt wt : Int × Int)
    (hb : parseClock b = some bt) (hw : parseClock w = some wt) :
    calculateSleepDuration b w =
      round1 ((((if wt.1 * 60 + wt.2 < bt.1 * 60 + bt.2 then wt.1 * 60 + wt.2 + 24 * 60
          else wt.1 * 60 + wt.2) - (bt.1 * 60 + bt.2) : Int) : ℚ) / 60) := by
  unfold calculateSleepDuration
  rw [hb, hw]

/-- `round(q, 1)` is the identity on integers. -/
theorem round1_intCast (n : Int) : round1 ((n : ℚ)) = n := by
  have h10 : ((n : ℚ) * 10) = ((10 * n : Int) : ℚ) := by push_cast; ring
  unfold round1 roundTenths roundHalfEven
  rw [h10, Int.floor_intCast]
  norm_num

/-! ### Lemmas about the stable sort -/

theorem mem_insertDesc {α β : Type} [LinearOrder β] (key : α → β) (l : List α) (a x : α) :
    x ∈ insertDesc key l a ↔ x ∈ l ∨ x = a := by
  induction l with
  | nil => simp [insertDesc]
  | cons b l ih =>
    by_cases h : key b < key a
    · simp [insertDesc, h]
      tauto
    · simp [insertDesc, h, ih]
      tauto

theorem mem_foldl_insertDesc {α β : Type} [LinearOrder β] (key : α → β) (l acc : List α) (x : α) :
    x ∈ l.foldl (insertDesc key) acc ↔ x ∈ acc ∨ x ∈ l := by
  induction l generalizing acc with
  | nil => simp
  | cons a l ih =>
    simp only [List.foldl_cons, ih, mem_insertDesc, List.mem_cons]
    tauto

theorem mem_sortDesc {α β : Type} [LinearOrder β] (key : α → β) (l : List α) (x : α) :
    x ∈ sortDesc key l ↔ x ∈ l := by
  simp [sortDesc, mem_foldl_insertDesc]

theorem insertDesc_perm {α β : Type} [LinearOrder β] (key : α → β) (l : List α) (a : α) :
    (insertDesc key l a).Perm (a :: l) := by
  induction l with
  | nil => simp [insertDesc]
  | cons b l ih =>
    by_cases h : key b < key a
    · simp [insertDesc, h]
    · simp only [insertDesc, if_neg h]
      exact (ih.cons b).trans (List.Perm.swap a b l)

theorem foldl_insertDesc_perm {α β : Type} [LinearOrder β] (key : α → β) (l acc : List α) :
    (l.foldl (insertDesc key) acc).Perm (acc ++ l) := by
  induction l generalizing acc with
  | nil => simp
  | cons a l ih =>
    have h1 : (a :: l).foldl (insertDesc key) acc
        = l.foldl (insertDesc key) (insertDesc key acc a) := by simp
    rw [h1]
    exact ((ih _).trans ((insertDesc_perm key acc a).append_right l)).trans
      List.perm_middle.symm

theorem sortDesc_perm {α β : Type} [LinearOrder β] (key : α → β) (l : List α) :
    (sortDesc key l).Perm l := by
  simpa [sortDesc] using foldl_insertDesc_perm key l []

/-- Inserting `a` into a list whose pairs already satisfy
`R x y := key y < key x ∨ (key y = key x ∧ P x y)` keeps that invariant,
provided every present element is `P`-before `a`. -/
theorem pairwise_insertDesc {α β : Type} [LinearOrder β] (key : α → β) (P : α → α → Prop)
    (l : List α) (a : α)
    (hl : l.Pairwise (fun x y => key y < key x ∨ (key y = key x ∧ P x y)))
    (ha : ∀ x ∈ l, P x a) :
    (insertDesc key l a).Pairwise (fun x y => key y < key x ∨ (key y = key x ∧ P x y)) := by
  induction l with
  | nil => simp [insertDesc]
  | cons b l ih =>
    rw [List.pairwise_cons] at hl
    by_cases h : key b < key a
    · rw [insertDesc, if_pos h]
      refine List.Pairwise.cons ?_ (List.Pairwise.cons hl.1 hl.2)
      intro y hy
      rcases List.mem_cons.mp hy with rfl | hy'
      · exact Or.inl h
      · rcases hl.1 y hy' with h' | ⟨h', _⟩
        · exact Or.inl (h'.trans h)
        · exact Or.inl (h' ▸ h)
    · rw [insertDesc, if_neg h]
      refine List.Pairwise.cons ?_ (ih hl.2 (fun x hx => ha x (List.mem_cons_of_mem b hx)))
      intro y hy
      rcases (mem_insertDesc key l a y).mp hy with hy' | rfl
      · exact hl.1 y hy'
      · rcases lt_or_eq_of_le (not_lt.mp h) with h' | h'
        · exact Or.inl h'
        · exact Or.inr ⟨h', ha b (List.mem_cons_self b l)⟩

/-- Stability of the descending sort: if `l` is `P`-ordered then the sorted
list is ordered by strictly descending key, with ties still `P`-ordered. -/
theorem pairwise_sortDesc {α β : Type} [LinearOrder β] (key : α → β) (P : α → α → Prop)
    (l : List α) (hl : l.Pairwise P) :
    (sortDesc key l).Pairwise (fun x y => key y < key x ∨ (key y = key x ∧ P x y)) := by
  suffices h : ∀ acc, acc.Pairwise (fun x y => key y < key x ∨ (key y = key x ∧ P x y)) →
      (∀ x ∈ acc, ∀ y ∈ l, P x y) →
      (l.foldl (insertDesc key) acc).Pairwise
        (fun x y => key y < key x ∨ (key y = key x ∧ P x y)) by
    exact h [] (List.Pairwise.nil) (by simp)
  induction l with
  | nil => intro acc hacc _; simpa using hacc
  | cons a l ih =>
    intro acc hacc hcross
    rw [List.pairwise_cons] at hl
    simp only [List.foldl_cons]
    refine ih hl.2 (insertDesc key acc a) ?_ ?_
    · exact pairwise_insertDesc key P acc a hacc
        (fun x hx => hcross x hx a (List.mem_cons_self a l))
    · intro x hx y hy
      rcases (mem_insertDesc key acc a x).mp hx with hx' | rfl
      · exact hcross x hx' y (List.mem_cons_of_mem a hy)
      · exact hl.1 y hy

/-- Any list is pairwise ordered by "occurs earlier": each in-order pair of
positions forms a two-element sublist. -/
theorem pairwise_pair_sublist {α : Type} (l : List α) :
    l.Pairwise (fun x y => List.Sublist [x, y] l) := by
  induction l with
  | nil => exact List.Pairwise.nil
  | cons a l ih =>
    refine List.Pairwise.cons ?_ (ih.imp (fun h => h.cons a))
    intro y hy
    exact (List.singleton_sublist.mpr hy).cons₂ a

/-! ### Lemmas about firstDedup and counterList -/

theorem mem_firstDedupAux {α : Type} [DecidableEq α] (seen l : List α) (x : α) :
    x ∈ firstDedupAux seen l ↔ x ∈ l ∧ x ∉ seen := by
  induction l generalizing seen with
  | nil => simp [firstDedupAux]
  | cons a l ih =>
    by_cases h : a ∈ seen
    · rw [firstDedupAux, if_pos h, ih]
      constructor
      · rintro ⟨hx, hs⟩
        exact ⟨List.mem_cons_of_mem a hx, hs⟩
      · rintro ⟨hx, hs⟩
        rcases List.mem_cons.mp hx with rfl | hx'
        · exact absurd h hs
        · exact ⟨hx', hs⟩
    · rw [firstDedupAux, if_neg h]
      simp only [List.mem_cons, ih]
      constructor
      · rintro (rfl | ⟨hx, hs⟩)
        · exact ⟨Or.inl rfl, h⟩
        · push_neg at hs
          exact ⟨Or.inr hx, hs.2⟩
      · rintro ⟨rfl | hx, hs⟩
        · exact Or.inl rfl
        · by_cases hxa : x = a
          · exact Or.inl hxa
          · exact Or.inr ⟨hx, by simp [hxa, hs]⟩

theorem mem_firstDedup {α : Type} [DecidableEq α] (l : List α) (x : α) :
    x ∈ firstDedup l ↔ x ∈ l := by
  simp [firstDedup, mem_firstDedupAux]

theorem mem_counterList (l : List String) (t : String) (c : Nat) :
    (t, c) ∈ counterList l ↔ t ∈ l ∧ c = l.count t := by
  unfold counterList
  rw [List.mem_map]
  constructor
  · rintro ⟨t', ht', heq⟩
    have h1 : t' = t := congrArg Prod.fst heq
    have h2 : l.count t' = c := congrArg Prod.snd heq
    constructor
    · rw [← h1]
      exact (mem_firstDedup l t').mp ht'
    · rw [← h1]
      exact h2.symm
  · rintro ⟨ht, rfl⟩
    exact ⟨t, (mem_firstDedup l t).mpr ht, rfl⟩

/-! ### Structure of analyze_dream_themes results -/

theorem analyzeDreamThemes1_some (s : String) (hs : s ≠ "") :
    analyzeDreamThemes1 (some s) =
      sortDesc (fun x => x.2.confidence)
        (dreamThemes1.filterMap (fun td =>
          if keywordScore td.2 (lowerData s) > 0 then
            some (td.1, ThemeData.mk (confidence1 (keywordScore td.2 (lowerData s)) (countWords s))
              (matchedKeywords td.2 (lowerData s)) (keywordScore td.2 (lowerData s)))
          else none)) := by
  simp only [analyzeDreamThemes1]
  rw [if_neg hs]

theorem analyzeDreamThemes2_some (s : String) (hs : s ≠ "") :
    analyzeDreamThemes2 (some s) =
      sortDesc (fun x => x.2.score)
        (dreamThemes2.filterMap (fun td =>
          if keywordScore td.2 (lowerData s) > 0 then
            some (td.1, ThemeData.mk (confidence2 (keywordScore td.2 (lowerData s)))
              (matchedKeywords td.2 (lowerData s)) (keywordScore td.2 (lowerData s)))
          else none)) := by
  simp only [analyzeDreamThemes2]
  rw [if_neg hs]

/-- Every result entry of variant 1 comes from a catalog theme with a
positive keyword score and carries exactly the derived fields. -/
theorem exists_of_mem_analyzeDreamThemes1 (c : Option String) (x : String × ThemeData)
    (hx : x ∈ analyzeDreamThemes1 c) :
    ∃ s, c = some s ∧ ∃ td ∈ dreamThemes1,
      0 < keywordScore td.2 (lowerData s) ∧
      x = (td.1, ThemeData.mk (confidence1 (keywordScore td.2 (lowerData s)) (countWords s))
            (matchedKeywords td.2 (lowerData s)) (keywordScore td.2 (lowerData s))) := by
  match c with
  | none => simp [analyzeDreamThemes1] at hx
  | some s =>
    refine ⟨s, rfl, ?_⟩
    by_cases hs : s = ""
    · subst hs
      simp [analyzeDreamThemes1] at hx
    · rw [analyzeDreamThemes1_some s hs, mem_sortDesc] at hx
      obtain ⟨td, htd, heq⟩ := List.mem_filterMap.mp hx
      by_cases hsc : keywordScore td.2 (lowerData s) > 0
      · rw [if_pos hsc] at heq
        exact ⟨td, htd, hsc, (Option.some_inj.mp heq).symm⟩
      · rw [if_neg hsc] at heq
        exact absurd heq (by simp)

/-- Every result entry of variant 2 comes from a catalog theme with a
positive keyword score and carries exactly the derived fields. -/
theorem exists_of_mem_analyzeDreamThemes2 (c : Option String) (x : String × ThemeData)
    (hx : x ∈ analyzeDreamThemes2 c) :
    ∃ s, c = some s ∧ ∃ td ∈ dreamThemes2,
      0 < keywordScore td.2 (lowerData s) ∧
      x = (td.1, ThemeData.mk (confidence2 (keywordScore td.2 (lowerData s)))
            (matchedKeywords td.2 (lowerData s)) (keywordScore td.2 (lowerData s))) := by
  match c with
  | none => simp [analyzeDreamThemes2] at hx
  | some s =>
    refine ⟨s, rfl, ?_⟩
    by_cases hs : s = ""
    · subst hs
      simp [analyzeDreamThemes2] at hx
    · rw [analyzeDreamThemes2_some s hs, mem_sortDesc] at hx
      obtain ⟨td, htd, heq⟩ := List.mem_filterMap.mp hx
      by_cases hsc : keywordScore td.2 (lowerData s) > 0
      · rw [if_pos hsc] at heq
        exact ⟨td, htd, hsc, (Option.some_inj.mp heq).symm⟩
      · rw [if_neg hsc] at heq
        exact absurd heq (by simp)

/-- The matched-keyword-instance list is as long as the score. -/
theorem length_matchedKeywords (kws : List String) (textLower : List Char) :
    (matchedKeywords kws textLower).length = keywordScore kws textLower := by
  unfold matchedKeywords keywordScore
  rw [List.length_flatMap]
  apply congrArg
  apply List.map_congr_left
  intro kw _
  exact List.length_replicate _ _

/-- C1: for every input dream text, every theme match returned by
`analyze_dream_themes` (both implementation variants) has a confidence
value within [0, 100], regardless of the keyword score or text length. -/
theorem themeMatch_confidence_clamped (c : Option String) :
    (∀ x ∈ analyzeDreamThemes1 c, 0 ≤ x.2.confidence ∧ x.2.confidence ≤ 100) ∧
    (∀ x ∈ analyzeDreamThemes2 c, 0 ≤ x.2.confidence ∧ x.2.confidence ≤ 100) := by
  constructor
  · intro x hx
    obtain ⟨s, -, td, -, -, rfl⟩ := exists_of_mem_analyzeDreamThemes1 c x hx
    dsimp only
    unfold confidence1
    refine ⟨le_min ?_ (by norm_num), min_le_right _ _⟩
    refine mul_nonneg (div_nonneg (by positivity) ?_) (by norm_num)
    exact le_trans zero_le_one (le_max_right _ 1)
  · intro x hx
    obtain ⟨s, -, td, -, -, rfl⟩ := exists_of_mem_analyzeDreamThemes2 c x hx
    dsimp only
    unfold confidence2
    exact ⟨le_min (by positivity) (by norm_num), min_le_right _ _⟩

/-- Witness for C1: the text "flying" produces the Flying match in variant
1, and its confidence obeys the bounds. -/
theorem themeMatch_confidence_clamped_witness :
    ("Flying", ThemeData.mk (confidence1 1 1) ["flying"] 1) ∈ analyzeDreamThemes1 (some "flying")
    ∧ (0 ≤ (ThemeData.mk (confidence1 1 1) ["flying"] 1).confidence
        ∧ (ThemeData.mk (confidence1 1 1) ["flying"] 1).confidence ≤ 100) := by
  have hmem : ("Flying", ThemeData.mk (confidence1 1 1) ["flying"] 1)
      ∈ analyzeDreamThemes1 (some "flying") := List.Mem.head _
  exact ⟨hmem, (themeMatch_confidence_clamped (some "flying")).1 _ hmem⟩

/-- C9: in both variants, each returned theme's integer score equals the
length of its matched-keyword-instance list, and both are at least 1. -/
theorem score_eq_matched_instances (c : Option String) :
    (∀ x ∈ analyzeDreamThemes1 c, x.2.score = x.2.keywords.length ∧ 1 ≤ x.2.score) ∧
    (∀ x ∈ analyzeDreamThemes2 c, x.2.score = x.2.keywords.length ∧ 1 ≤ x.2.score) := by
  constructor
  · intro x hx
    obtain ⟨s, -, td, -, hsc, rfl⟩ := exists_of_mem_analyzeDreamThemes1 c x hx
    dsimp only
    exact ⟨(length_matchedKeywords td.2 (lowerData s)).symm, hsc⟩
  · intro x hx
    obtain ⟨s, -, td, -, hsc, rfl⟩ := exists_of_mem_analyzeDreamThemes2 c x hx
    dsimp only
    exact ⟨(length_matchedKeywords td.2 (lowerData s)).symm, hsc⟩

/-- Witness for C9: the Water match of the text "water" in variant 1. -/
theorem score_eq_matched_instances_witness :
    ("Water", ThemeData.mk (confidence1 1 1) ["water"] 1) ∈ analyzeDreamThemes1 (some "water")
    ∧ ((ThemeData.mk (confidence1 1 1) ["water"] 1).score
          = (ThemeData.mk (confidence1 1 1) ["water"] 1).keywords.length
        ∧ 1 ≤ (ThemeData.mk (confidence1 1 1) ["water"] 1).score) := by
  have hmem : ("Water", ThemeData.mk (confidence1 1 1) ["water"] 1)
      ∈ analyzeDreamThemes1 (some "water") := List.Mem.head _
  exact ⟨hmem, (score_eq_matched_instances (some "water")).1 _ hmem⟩

/-- C3: each returned theme's score is the sum, over that theme's catalog
keywords, of whole-word occurrence counts in the lower-cased text; "cat"
does not match inside "category"; themes whose score is 0 are omitted. -/
theorem themeScore_wordBoundary_sum (c : Option String) :
    (∀ x ∈ analyzeDreamThemes1 c, ∃ s, c = some s ∧ ∃ kws, (x.1, kws) ∈ dreamThemes1 ∧
        x.2.score = (kws.map (fun kw => matchCount kw.data (lowerData s))).sum) ∧
    (∀ x ∈ analyzeDreamThemes2 c, ∃ s, c = some s ∧ ∃ kws, (x.1, kws) ∈ dreamThemes2 ∧
        x.2.score = (kws.map (fun kw => matchCount kw.data (lowerData s))).sum) ∧
    (∀ s, c = some s → ∀ td ∈ dreamThemes1,
        (td.2.map (fun kw => matchCount kw.data (lowerData s))).sum = 0 →
        td.1 ∉ (analyzeDreamThemes1 c).map Prod.fst) ∧
    (∀ s, c = some s → ∀ td ∈ dreamThemes2,
        (td.2.map (fun kw => matchCount kw.data (lowerData s))).sum = 0 →
        td.1 ∉ (analyzeDreamThemes2 c).map Prod.fst) ∧
    matchCount "cat".data (lowerData "my category") = 0 ∧
    analyzeDreamThemes1 (some "category") = [] ∧
    analyzeDreamThemes2 (some "category") = [] := by
  refine ⟨?_, ?_, ?_, ?_, by decide, by decide, by decide⟩
  · intro x hx
    obtain ⟨s, rfl, td, htd, -, rfl⟩ := exists_of_mem_analyzeDreamThemes1 c x hx
    exact ⟨s, rfl, td.2, htd, rfl⟩
  · intro x hx
    obtain ⟨s, rfl, td, htd, -, rfl⟩ := exists_of_mem_analyzeDreamThemes2 c x hx
    exact ⟨s, rfl, td.2, htd, rfl⟩
  · rintro s rfl td htd hzero hmem
    obtain ⟨x, hx, hfst⟩ := List.mem_map.mp hmem
    obtain ⟨s', hs', td', htd', hpos, rfl⟩ := exists_of_mem_analyzeDreamThemes1 _ x hx
    obtain rfl : s' = s := Option.some_inj.mp hs'.symm
    have hnodup : (dreamThemes1.map Prod.fst).Nodup := by decide
    have : td' = td := List.inj_on_of_nodup_map hnodup htd' htd hfst
    subst this
    rw [keywordScore] at hpos
    omega
  · rintro s rfl td htd hzero hmem
    obtain ⟨x, hx, hfst⟩ := List.mem_map.mp hmem
    obtain ⟨s', hs', td', htd', hpos, rfl⟩ := exists_of_mem_analyzeDreamThemes2 _ x hx
    obtain rfl : s' = s := Option.some_inj.mp hs'.symm
    have hnodup : (dreamThemes2.map Prod.fst).Nodup := by decide
    have : td' = td := List.inj_on_of_nodup_map hnodup htd' htd hfst
    subst this
    rw [keywordScore] at hpos
    omega

/-- Witness for C3: concrete instances of each hypothesis-guarded part at
the text "i saw water": the Water entry's score is the keyword count sum,
and the zero-scoring Flying theme is omitted. -/
theorem themeScore_wordBoundary_sum_witness :
    ("Water", ThemeData.mk (confidence1 1 3) ["water"] 1) ∈ analyzeDreamThemes1 (some "i saw water")
    ∧ (∃ s, (some "i saw water") = some s ∧ ∃ kws, ("Water", kws) ∈ dreamThemes1 ∧
        (ThemeData.mk (confidence1 1 3) ["water"] 1).score
          = (kws.map (fun kw => matchCount kw.data (lowerData s))).sum)
    ∧ "Flying" ∉ (analyzeDreamThemes1 (some "i saw water")).map Prod.fst := by
  have hmem : ("Water", ThemeData.mk (confidence1 1 3) ["water"] 1)
      ∈ analyzeDreamThemes1 (some "i saw water") := List.Mem.head _
  refine ⟨hmem, (themeScore_wordBoundary_sum (some "i saw water")).1 _ hmem, ?_⟩
  refine (themeScore_wordBoundary_sum (some "i saw water")).2.2.1 "i saw water" rfl
    ("Flying", ["fly", "flying", "soar", "wings", "air", "floating", "levitate", "hover"])
    (by decide) (by decide)

/-- C4: empty or null dream text gives an empty result (no exception), and
a text matching no catalog keyword likewise gives an empty result. -/
theorem emptyInput_emptyResult :
    analyzeDreamThemes1 none = [] ∧ analyzeDreamThemes1 (some "") = [] ∧
    analyzeDreamThemes2 none = [] ∧ analyzeDreamThemes2 (some "") = [] ∧
    (∀ s : String, (∀ td ∈ dreamThemes1, ∀ kw ∈ td.2, matchCount kw.data (lowerData s) = 0) →
        analyzeDreamThemes1 (some s) = []) ∧
    (∀ s : String, (∀ td ∈ dreamThemes2, ∀ kw ∈ td.2, matchCount kw.data (lowerData s) = 0) →
        analyzeDreamThemes2 (some s) = []) := by
  refine ⟨rfl, rfl, rfl, rfl, ?_, ?_⟩
  · intro s h
    by_cases hs : s = ""
    · subst hs; rfl
    · rw [analyzeDreamThemes1_some s hs]
      have hnil : dreamThemes1.filterMap (fun td =>
          if keywordScore td.2 (lowerData s) > 0 then
            some (td.1, ThemeData.mk (confidence1 (keywordScore td.2 (lowerData s)) (countWords s))
              (matchedKeywords td.2 (lowerData s)) (keywordScore td.2 (lowerData s)))
          else none) = [] := by
        rw [List.filterMap_eq_nil_iff]
        intro td htd
        have hz : keywordScore td.2 (lowerData s) = 0 := by
          rw [keywordScore]
          apply List.sum_eq_zero
          intro n hn
          obtain ⟨kw, hkw, rfl⟩ := List.mem_map.mp hn
          exact h td htd kw hkw
        rw [if_neg (by omega)]
      rw [hnil]
      rfl
  · intro s h
    by_cases hs : s = ""
    · subst hs; rfl
    · rw [analyzeDreamThemes2_some s hs]
      have hnil : dreamThemes2.filterMap (fun td =>
          if keywordScore td.2 (lowerData s) > 0 then
            some (td.1, ThemeData.mk (confidence2 (keywordScore td.2 (lowerData s)))
              (matchedKeywords td.2 (lowerData s)) (keywordScore td.2 (lowerData s)))
          else none) = [] := by
        rw [List.filterMap_eq_nil_iff]
        intro td htd
        have hz : keywordScore td.2 (lowerData s) = 0 := by
          rw [keywordScore]
          apply List.sum_eq_zero
          intro n hn
          obtain ⟨kw, hkw, rfl⟩ := List.mem_map.mp hn
          exact h td htd kw hkw
        rw [if_neg (by omega)]
      rw [hnil]
      rfl

/-- Witness for C4: the text "hello there" matches no catalog keyword in
either variant and yields empty results. -/
theorem emptyInput_emptyResult_witness :
    analyzeDreamThemes1 (some "hello there") = []
    ∧ analyzeDreamThemes2 (some "hello there") = [] := by
  refine ⟨emptyInput_emptyResult.2.2.2.2.1 "hello there" (by decide),
    emptyInput_emptyResult.2.2.2.2.2 "hello there" (by decide)⟩

/-! ### Trend lemmas (C7) -/

theorem trendCounts_eq (values : List ℚ) :
    trendCounts values =
      (((values.zip values.tail).filter (fun p => p.1 < p.2)).length,
       ((values.zip values.tail).filter (fun p => p.2 < p.1)).length) := by
  induction values with
  | nil => rfl
  | cons a l ih =>
    cases l with
    | nil => rfl
    | cons b rest =>
      have hz : (a :: b :: rest).zip (a :: b :: rest).tail
          = (a, b) :: ((b :: rest).zip (b :: rest).tail) := rfl
      rw [hz]
      by_cases h1 : a < b
      · simp [trendCounts, ih, List.filter_cons, h1, not_lt.mpr (le_of_lt h1)]
      · by_cases h2 : b < a
        · simp [trendCounts, ih, List.filter_cons, h1, h2]
        · simp [trendCounts, ih, List.filter_cons, h1, h2]

/-- C7: the trend label compares consecutive pairs, counting strict
increases against strict decreases; "Improving" when increases exceed
decreases, "Declining" when decreases exceed increases, otherwise
"Stable"; fewer than 2 values give "Insufficient data"; and the three
documented examples hold. -/
theorem trend_classification (values : List ℚ) :
    calculateTrend values =
      (if values.length < 2 then "Insufficient data"
       else if ((values.zip values.tail).filter (fun p => p.2 < p.1)).length
           < ((values.zip values.tail).filter (fun p => p.1 < p.2)).length then "Improving"
       else if ((values.zip values.tail).filter (fun p => p.1 < p.2)).length
           < ((values.zip values.tail).filter (fun p => p.2 < p.1)).length then "Declining"
       else "Stable")
    ∧ calculateTrend [5, 6, 7, 8] = "Improving"
    ∧ calculateTrend [8, 7, 6, 5] = "Declining"
    ∧ calculateTrend [5, 5, 5] = "Stable" := by
  refine ⟨?_, ?_, ?_, ?_⟩
  · unfold calculateTrend
    rw [trendCounts_eq]
  · norm_num [calculateTrend, trendCounts]
  · norm_num [calculateTrend, trendCounts]
  · norm_num [calculateTrend, trendCounts]

/-! ### Rounding lemmas (C10) -/

theorem roundHalfEven_nonneg (q : ℚ) (hq : 0 ≤ q) : 0 ≤ roundHalfEven q := by
  have hf : (0 : Int) ≤ ⌊q⌋ := Int.le_floor.mpr (by exact_mod_cast hq)
  simp only [roundHalfEven]
  split
  · exact hf
  split
  · omega
  split
  · exact hf
  · omega

theorem roundHalfEven_le (q : ℚ) (n : Int) (h : q ≤ (n : ℚ)) : roundHalfEven q ≤ n := by
  have hf : ⌊q⌋ ≤ n := by
    have h2 := Int.floor_le_floor h
    rwa [Int.floor_intCast] at h2
  by_cases h1 : q - (⌊q⌋ : ℚ) < 1 / 2
  · simp only [roundHalfEven, if_pos h1]
    exact hf
  · by_cases h2 : q - (⌊q⌋ : ℚ) > 1 / 2
    · simp only [roundHalfEven, if_neg h1, if_pos h2]
      rcases lt_or_eq_of_le hf with h3 | h3
      · omega
      · exfalso
        have h4 : q ≤ (⌊q⌋ : ℚ) := by rw [h3]; exact h
        linarith
    · have heq : q - (⌊q⌋ : ℚ) = 1 / 2 := le_antisymm (not_lt.mp h2) (not_lt.mp h1)
      by_cases h3 : ⌊q⌋ % 2 = 0
      · simp only [roundHalfEven, if_neg h1, if_neg h2, if_pos h3]
        exact hf
      · simp only [roundHalfEven, if_neg h1, if_neg h2, if_neg h3]
        rcases lt_or_eq_of_le hf with h4 | h4
        · omega
        · exfalso
          have h5 : q ≤ (⌊q⌋ : ℚ) := by rw [h4]; exact h
          linarith

/-- Counterexample to C10 as stated: the integer-parseable but out-of-range
wake time "48:00" is accepted by the code and yields a 48-hour duration,
outside [0, 24]. -/
theorem sleep_duration_counterexample :
    calculateSleepDuration "00:00" "48:00" = 48
    ∧ ¬(calculateSleepDuration "00:00" "48:00" ≤ 24) := by
  have h : calculateSleepDuration "00:00" "48:00" = 48 := by
    rw [calculateSleepDuration_eq "00:00" "48:00" (0, 0) (48, 0) (by decide) (by decide)]
    norm_num
    rw [show (48 : ℚ) = ((48 : Int) : ℚ) by norm_num, round1_intCast]
  refine ⟨h, ?_⟩
  rw [h]
  norm_num

/-- C10 (amended): the duration computation is total; times that fail to
parse yield 0.0, and valid clock times (hours 0-23, minutes 0-59, wrapping
past midnight) yield a duration within [0, 24]; but integer-parseable
out-of-range times can produce values outside [0, 24]. -/
theorem sleep_duration_amended (b w : String) :
    (parseClock b = none ∨ parseClock w = none → calculateSleepDuration b w = 0) ∧
    (isValidClock b = true → isValidClock w = true →
      0 ≤ calculateSleepDuration b w ∧ calculateSleepDuration b w ≤ 24) := by
  constructor
  · intro h
    cases hb : parseClock b <;> cases hw : parseClock w <;>
      simp only [calculateSleepDuration, hb, hw] <;> try rfl
    rcases h with h | h
    · rw [hb] at h
      exact absurd h (by simp)
    · rw [hw] at h
      exact absurd h (by simp)
  · intro hvb hvw
    rcases hpb : parseClock b with _ | bt
    · rw [isValidClock, hpb] at hvb
      exact absurd hvb (by simp)
    rcases hpw : parseClock w with _ | wt
    · rw [isValidClock, hpw] at hvw
      exact absurd hvw (by simp)
    rw [isValidClock, hpb] at hvb
    rw [isValidClock, hpw] at hvw
    simp only [Bool.and_eq_true, decide_eq_true_eq] at hvb hvw
    rw [calculateSleepDuration_eq b w bt wt hpb hpw]
    have hB : 0 ≤ bt.1 * 60 + bt.2 ∧ bt.1 * 60 + bt.2 ≤ 1439 := by omega
    have hW : 0 ≤ wt.1 * 60 + wt.2 ∧ wt.1 * 60 + wt.2 ≤ 1439 := by omega
    have hd : 0 ≤ (if wt.1 * 60 + wt.2 < bt.1 * 60 + bt.2 then wt.1 * 60 + wt.2 + 24 * 60
          else wt.1 * 60 + wt.2) - (bt.1 * 60 + bt.2)
        ∧ (if wt.1 * 60 + wt.2 < bt.1 * 60 + bt.2 then wt.1 * 60 + wt.2 + 24 * 60
          else wt.1 * 60 + wt.2) - (bt.1 * 60 + bt.2) ≤ 1439 := by
      split <;> omega
    set d : Int := (if wt.1 * 60 + wt.2 < bt.1 * 60 + bt.2 then wt.1 * 60 + wt.2 + 24 * 60
        else wt.1 * 60 + wt.2) - (bt.1 * 60 + bt.2) with hdef
    have hq0 : (0 : ℚ) ≤ (d : ℚ) / 60 := by
      apply div_nonneg _ (by norm_num)
      exact_mod_cast hd.1
    constructor
    · unfold round1 roundTenths
      apply div_nonneg _ (by norm_num)
      have := roundHalfEven_nonneg ((d : ℚ) / 60 * 10) (by positivity)
      exact_mod_cast this
    · unfold round1 roundTenths
      rw [div_le_iff (by norm_num)]
      have hle : (d : ℚ) / 60 * 10 ≤ ((240 : Int) : ℚ) := by
        have h6 : (d : ℚ) / 60 * 10 = (d : ℚ) / 6 := by ring
        rw [h6, div_le_iff (by norm_num)]
        have : (d : ℚ) ≤ 1439 := by exact_mod_cast hd.2
        push_cast
        linarith
      have := roundHalfEven_le ((d : ℚ) / 60 * 10) 240 hle
      have hcast : ((roundHalfEven ((d : ℚ) / 60 * 10) : Int) : ℚ) ≤ ((240 : Int) : ℚ) := by
        exact_mod_cast this
      push_cast at hcast ⊢
      linarith

/-- Witness for C10's amended theorem: valid times 23:00-07:00 give a
duration within bounds, and an unparseable bedtime gives 0.0. -/
theorem sleep_duration_amended_witness :
    isValidClock "23:00" = true ∧ isValidClock "07:00" = true
    ∧ (0 ≤ calculateSleepDuration "23:00" "07:00" ∧ calculateSleepDuration "23:00" "07:00" ≤ 24)
    ∧ parseClock "ab" = none ∧ calculateSleepDuration "ab" "07:00" = 0 := by
  refine ⟨by decide, by decide,
    (sleep_duration_amended "23:00" "07:00").2 (by decide) (by decide),
    by decide, (sleep_duration_amended "ab" "07:00").1 (Or.inl (by decide))⟩

/-! ### Counter and pattern lemmas (C2, C5) -/

theorem map_fst_counterList (l : List String) :
    (counterList l).map Prod.fst = firstDedup l := by
  unfold counterList
  rw [List.map_map]
  exact List.map_id _

theorem snd_counterList (l : List String) :
    ∀ p ∈ counterList l, p.2 = l.count p.1 := by
  intro p hp
  obtain ⟨t, -, rfl⟩ := List.mem_map.mp hp
  rfl

/-- `most_common` output is descending in count, ties ordered as in the
counter (first-encountered order). -/
theorem mostCommon_sorted_stable (n : Nat) (l : List String) :
    (mostCommon n l).Pairwise
      (fun x y => y.2 < x.2 ∨ (y.2 = x.2 ∧ List.Sublist [x, y] (counterList l))) := by
  unfold mostCommon
  exact List.Pairwise.sublist (List.take_sublist n _)
    (pairwise_sortDesc _ _ _ (pairwise_pair_sublist _))

/-- A `filterMap` that preserves first components produces a sublist of the
key list. -/
theorem map_fst_filterMap_sublist {γ α β : Type} (l : List (γ × α)) (F : γ × α → Option (γ × β))
    (hF : ∀ x y, F x = some y → y.1 = x.1) :
    ((l.filterMap F).map Prod.fst).Sublist (l.map Prod.fst) := by
  induction l with
  | nil => simp
  | cons x l ih =>
    cases hFx : F x with
    | none =>
      rw [List.filterMap_cons_none hFx, List.map_cons]
      exact (ih).cons _
    | some y =>
      rw [List.filterMap_cons_some hFx, List.map_cons, List.map_cons, hF x y hFx]
      exact (ih).cons₂ _

theorem nodup_themeNames1 (c : String) : (themeNames1 c).Nodup := by
  unfold themeNames1
  by_cases hs : c = ""
  · subst hs
    simp [analyzeDreamThemes1]
  · rw [analyzeDreamThemes1_some c hs]
    rw [List.Perm.nodup_iff ((sortDesc_perm _ _).map Prod.fst)]
    refine List.Sublist.nodup (map_fst_filterMap_sublist _ _ ?_) (by decide)
    intro x y h
    by_cases hp : keywordScore x.2 (lowerData c) > 0
    · rw [if_pos hp] at h
      rw [← Option.some_inj.mp h]
    · rw [if_neg hp] at h
      exact absurd h (by simp)

theorem nodup_themeNames2 (c : String) : (themeNames2 c).Nodup := by
  unfold themeNames2
  by_cases hs : c = ""
  · subst hs
    simp [analyzeDreamThemes2]
  · rw [analyzeDreamThemes2_some c hs]
    rw [List.Perm.nodup_iff ((sortDesc_perm _ _).map Prod.fst)]
    refine List.Sublist.nodup (map_fst_filterMap_sublist _ _ ?_) (by decide)
    intro x y h
    by_cases hp : keywordScore x.2 (lowerData c) > 0
    · rw [if_pos hp] at h
      rw [← Option.some_inj.mp h]
    · rw [if_neg hp] at h
      exact absurd h (by simp)

/-- Counting one element across concatenated duplicate-free blocks counts
the blocks containing it. -/
theorem count_flatMap_eq_countP {α β : Type} [DecidableEq β] (l : List α) (f : α → List β)
    (b : β) (h : ∀ a ∈ l, (f a).Nodup) :
    (l.flatMap f).count b = l.countP (fun a => decide (b ∈ f a)) := by
  induction l with
  | nil => rfl
  | cons a l ih =>
    rw [List.flatMap_cons, List.count_append, List.countP_cons,
      ih (fun x hx => h x (List.mem_cons_of_mem a hx))]
    by_cases hb : b ∈ f a
    · rw [List.count_eq_one_of_mem (h a (List.mem_cons_self a l)) hb]
      simp [hb]
      omega
    · rw [List.count_eq_zero.mpr hb]
      simp [hb]

theorem fifth_le_div_iff (c tot : Nat) (htot : 0 < tot) :
    (1 / 5 : ℚ) ≤ (c : ℚ) / (tot : ℚ) ↔ tot ≤ 5 * c := by
  have hq : (0 : ℚ) < (tot : ℚ) := by exact_mod_cast htot
  rw [div_le_div_iff (by norm_num) hq, one_mul,
    show ((c : ℚ) * 5) = ((5 * c : Nat) : ℚ) by push_cast; ring]
  exact_mod_cast Iff.rfl

theorem count_allThemes1 (entries : List SleepEntry) (t : String) :
    (allThemes1 entries).count t
      = (qualifying1 entries).countP (fun e => decide (t ∈ themeNames1 e.dream_content)) := by
  unfold allThemes1
  exact count_flatMap_eq_countP _ _ _ (fun e _ => nodup_themeNames1 e.dream_content)

/-- C2: the recurring-themes list contains exactly the themes detected in
at least 20% of the qualifying entries, each reported with its name, raw
count (the number of qualifying entries it occurs in) and percentage. -/
theorem recurring_themes_threshold (entries : List SleepEntry) (r : DreamPatterns)
    (h : analyzeDreamPatterns1 entries = some r) :
    r.total_dream_nights = (qualifying1 entries).length
    ∧ r.recurring_themes = recurringThemes1 entries
    ∧ ∀ t c pct, ((t, c, pct) ∈ r.recurring_themes ↔
        (0 < c
         ∧ c = (qualifying1 entries).countP (fun e => decide (t ∈ themeNames1 e.dream_content))
         ∧ (qualifying1 entries).length ≤ 5 * c
         ∧ pct = (c : ℚ) / ((qualifying1 entries).length : ℚ) * 100)) := by
  unfold analyzeDreamPatterns1 at h
  have hex : ∃ e rest, qualifying1 entries = e :: rest := by
    rcases hqq : qualifying1 entries with _ | ⟨e, rest⟩
    · rw [hqq] at h
      exact absurd h (by simp)
    · exact ⟨e, rest, rfl⟩
  obtain ⟨e, rest, hq⟩ := hex
  rw [hq] at h
  obtain rfl := Option.some_inj.mp h
  have total_pos : 0 < (qualifying1 entries).length := by rw [hq]; simp
  refine ⟨by rw [hq], rfl, ?_⟩
  intro t c pct
  show (t, c, pct) ∈ recurringThemes1 entries ↔ _
  unfold recurringThemes1
  rw [List.mem_filterMap]
  constructor
  · rintro ⟨p, hp, heq⟩
    by_cases hcond : (p.2 : ℚ) / ((qualifying1 entries).length : ℚ) ≥ 1 / 5
    · rw [if_pos hcond] at heq
      have heq' := Option.some_inj.mp heq
      have h1 : p.1 = t := congrArg Prod.fst heq'
      have h2 : p.2 = c := congrArg (fun q => q.2.1) heq'
      have h3 : (p.2 : ℚ) / ((qualifying1 entries).length : ℚ) * 100 = pct :=
        congrArg (fun q => q.2.2) heq'
      obtain ⟨hmem, hcount⟩ := (mem_counterList _ p.1 p.2).mp hp
      refine ⟨?_, ?_, ?_, ?_⟩
      · rw [← h2, hcount]
        exact List.count_pos_iff.mpr hmem
      · rw [← h1, ← h2, hcount]
        exact count_allThemes1 entries p.1
      · rw [← h2]
        exact (fifth_le_div_iff p.2 _ total_pos).mp hcond
      · rw [← h3, h2]
    · rw [if_neg hcond] at heq
      exact absurd heq (by simp)
  · rintro ⟨hpos, hc, hthr, hpct⟩
    have hcount : (allThemes1 entries).count t = c := by
      rw [count_allThemes1]
      exact hc.symm
    have hmem : t ∈ allThemes1 entries := by
      have hcp : 0 < (qualifying1 entries).countP
          (fun e => decide (t ∈ themeNames1 e.dream_content)) := hc ▸ hpos
      obtain ⟨e', he', hpe⟩ := List.countP_pos.mp hcp
      unfold allThemes1
      exact List.mem_flatMap.mpr ⟨e', he', by simpa using hpe⟩
    refine ⟨(t, c), (mem_counterList _ t c).mpr ⟨hmem, hcount.symm⟩, ?_⟩
    have hcond : ((t, c).2 : ℚ) / ((qualifying1 entries).length : ℚ) ≥ 1 / 5 :=
      (fifth_le_div_iff c _ total_pos).mpr hthr
    rw [if_pos hcond, hpct]

/-- Witness for C2: the one-entry collection whose dream matches only
Flying; Flying occurs in 100% of qualifying entries and is recurring. -/
theorem recurring_themes_threshold_witness :
    analyzeDreamPatterns1 [entryOnlyFlying] = some patternsOnlyFlying
    ∧ ("Flying", 1, ((1 : Nat) : ℚ) / ((qualifying1 [entryOnlyFlying]).length : ℚ) * 100)
        ∈ patternsOnlyFlying.recurring_themes := by
  have h : analyzeDreamPatterns1 [entryOnlyFlying] = some patternsOnlyFlying := rfl
  refine ⟨h, ?_⟩
  exact ((recurring_themes_threshold [entryOnlyFlying] patternsOnlyFlying h).2.2 "Flying" 1
    _).mpr ⟨by decide, by decide, by decide, rfl⟩

/-- Counterexample to C5 as stated: in the enhanced variant's aggregation,
the entry "fly fly fly water water dog" matches Flying, Water and Animals;
Animals is not among the entry's top-2 themes, yet it still reaches the
theme→count map. -/
theorem patterns_top_themes_counterexample :
    themeNames2 entryThreeThemes.dream_content = ["Flying", "Water", "Animals"]
    ∧ ("Animals", 1) ∈ counterList (allThemes2 [entryThreeThemes] "2024-01-01")
    ∧ "Animals" ∉ ((analyzeDreamThemes2 (some entryThreeThemes.dream_content)).take 2).map
        Prod.fst := by
  refine ⟨by decide, by decide, by decide⟩

/-- C5 (amended): each qualifying entry contributes all of its matched
themes (not only the top 1-2) to the theme→count map, whose keys are in
first-encountered order with counts equal to total multiplicity; the
most-common-5 list is the first 5 items of the stable descending sort of
that map, so it is ordered by descending count with ties in
first-encountered order.  Both variants. -/
theorem patterns_theme_frequency_amended (entries : List SleepEntry) (cutoff : String) :
    ((counterList (allThemes1 entries)).map Prod.fst = firstDedup (allThemes1 entries))
    ∧ (∀ t, t ∈ (counterList (allThemes1 entries)).map Prod.fst ↔
        ∃ e ∈ qualifying1 entries, t ∈ themeNames1 e.dream_content)
    ∧ (∀ p ∈ counterList (allThemes1 entries), p.2 = (allThemes1 entries).count p.1)
    ∧ mostCommon 5 (allThemes1 entries)
        = (sortDesc (fun p => p.2) (counterList (allThemes1 entries))).take 5
    ∧ (mostCommon 5 (allThemes1 entries)).Pairwise
        (fun x y => y.2 < x.2 ∨ (y.2 = x.2 ∧ List.Sublist [x, y] (counterList (allThemes1 entries))))
    ∧ ((counterList (allThemes2 entries cutoff)).map Prod.fst
        = firstDedup (allThemes2 entries cutoff))
    ∧ (∀ t, t ∈ (counterList (allThemes2 entries cutoff)).map Prod.fst ↔
        ∃ e ∈ recentDreams2 entries cutoff, t ∈ themeNames2 e.dream_content)
    ∧ (∀ p ∈ counterList (allThemes2 entries cutoff), p.2 = (allThemes2 entries cutoff).count p.1)
    ∧ (mostCommon 5 (allThemes2 entries cutoff)).Pairwise
        (fun x y => y.2 < x.2 ∨ (y.2 = x.2
          ∧ List.Sublist [x, y] (counterList (allThemes2 entries cutoff)))) := by
  refine ⟨map_fst_counterList _, ?_, snd_counterList _, rfl, mostCommon_sorted_stable 5 _,
    map_fst_counterList _, ?_, snd_counterList _, mostCommon_sorted_stable 5 _⟩
  · intro t
    rw [map_fst_counterList, mem_firstDedup]
    unfold allThemes1
    exact List.mem_flatMap
  · intro t
    rw [map_fst_counterList, mem_firstDedup]
    unfold allThemes2
    exact List.mem_flatMap

/-- Witness for C5's amended theorem: on the one-entry Flying collection,
the counter holds ("Flying", 1) and its count is the multiplicity. -/
theorem patterns_theme_frequency_amended_witness :
    ("Flying", 1) ∈ counterList (allThemes1 [entryOnlyFlying])
    ∧ (("Flying", 1) : String × Nat).2 = (allThemes1 [entryOnlyFlying]).count "Flying" := by
  refine ⟨by decide, ?_⟩
  exact (patterns_theme_frequency_amended [entryOnlyFlying] "2024-01-01").2.2.1
    ("Flying", 1) (by decide)

/-- Counterexample to C6 as stated: over the two documented example
entries, the emotion "peaceful" has 2 total theme associations, which
meets the code's ≥2 threshold, so it does receive a most-common-theme
report (the claim says it receives none). -/
theorem example_scenario_counterexample :
    (analyzeEmotionalDreamCorrelation1 [entryFlying, entrySwimming]).lookup "peaceful"
      ≠ none := by
  decide

/-- C6 (amended): in the documented two-entry example, Flying is detected
for the first entry, Water for the second, total_dream_nights is 2, and
"peaceful" — associated with the 2 distinct themes Flying and Water, each
with per-theme count 1 — meets the ≥2 total-association threshold and is
reported with most-common theme "Flying" (first encountered among the
tied themes), frequency 1, and 2 total occurrences. -/
theorem example_scenario_amended :
    themeNames1 entryFlying.dream_content = ["Flying"]
    ∧ themeNames1 entrySwimming.dream_content = ["Water"]
    ∧ (analyzeDreamPatterns1 [entryFlying, entrySwimming]).map
        (fun r => r.total_dream_nights) = some 2
    ∧ (emotionCorrelations1 [entryFlying, entrySwimming]).lookup "peaceful"
        = some ["Flying", "Water"]
    ∧ (analyzeEmotionalDreamCorrelation1 [entryFlying, entrySwimming]).lookup "peaceful"
        = some (EmotionPattern.mk "Flying" 1 2)
    ∧ (analyzeEmotionalDreamCorrelation1 [entryFlying, entrySwimming]).lookup "happy"
        = none := by
  refine ⟨by decide, by decide, by decide, by decide, by decide, by decide⟩

/-- C8: with fewer than 3 matched dates the correlation analysis returns
only the explicit insufficient-data message (no partial group averages);
with at least 3 matched dates it reports the group-average lines for each
nonempty partition of performance scores by sleep quality (≥7 good, ≤4
poor) and by dream flag. -/
theorem correlations_insufficient_guard (ss : List SleepEntry) (ps : List PerformanceEntry) :
    ((matchedDates ss ps).length < 3 →
      analyzeCorrelations ss ps
        = (if ss = [] ∨ ps = [] then [insufficientMsg] else [needThreeMsg]))
    ∧ (3 ≤ (matchedDates ss ps).length →
        (goodSleepScores ss ps ≠ [] → goodSleepLine ss ps ∈ analyzeCorrelations ss ps)
        ∧ (poorSleepScores ss ps ≠ [] → poorSleepLine ss ps ∈ analyzeCorrelations ss ps)
        ∧ (dreamScores ss ps ≠ [] → noDreamScores ss ps ≠ [] →
            dreamLine ss ps ∈ analyzeCorrelations ss ps
            ∧ noDreamLine ss ps ∈ analyzeCorrelations ss ps)) := by
  constructor
  · intro h
    unfold analyzeCorrelations
    by_cases he : ss = [] ∨ ps = []
    · rw [if_pos he, if_pos he]
    · rw [if_neg he, if_neg he, if_pos h]
  · intro h
    have he : ¬(ss = [] ∨ ps = []) := by
      rintro (rfl | rfl)
      · simp [matchedDates, sleepDict] at h
      · simp [matchedDates, perfDict, List.lookup] at h
    unfold analyzeCorrelations
    rw [if_neg he, if_neg (not_lt.mpr h)]
    dsimp only
    refine ⟨?_, ?_, ?_⟩
    · intro hne
      rw [if_pos hne]
      rw [if_neg (by simp)]
      simp
    · intro hne
      rw [if_pos hne]
      rw [if_neg (by simp)]
      simp
    · intro hd hnd
      rw [if_pos (And.intro hd hnd)]
      rw [if_neg (by simp)]
      constructor <;> simp

/-- Witness for C8: one shared date gives the explicit guard message;
three shared dates with a good-sleep day put the good-sleep average line
in the output. -/
theorem correlations_insufficient_guard_witness :
    (matchedDates sleepOne perfOne).length < 3
    ∧ analyzeCorrelations sleepOne perfOne = [needThreeMsg]
    ∧ 3 ≤ (matchedDates sleepThree perfThree).length
    ∧ goodSleepScores sleepThree perfThree ≠ []
    ∧ goodSleepLine sleepThree perfThree ∈ analyzeCorrelations sleepThree perfThree := by
  refine ⟨by decide, ?_, by decide, by decide, ?_⟩
  · have h1 := (correlations_insufficient_guard sleepOne perfOne).1 (by decide)
    rw [h1, if_neg (by decide)]
  · exact (((correlations_insufficient_guard sleepThree perfThree).2 (by decide)).1 (by decide))
